import Mathlib

/-!
RADOS binding: NotifyHandler, IOContext, Cursor, Object, watch and WriteOp

A shallow embedding of `src/RADOS/RADOS.cc`.

* `NotifyHandler` (RADOS.cc 1070-1121) is a state machine: its fields are
  the fields of the C++ struct, and what it does to the outside world
  (`objecter->linger_cancel`, `ca::dispatch`, a failed `ceph_assert`) is
  recorded in a trace of events.  The strand runs the posted continuations
  one at a time, which is modelled by processing a list of signals in order.
* `IOContext` (RADOS.cc 118-299) is a record of the fields of
  `IOContextImpl`; a mutator returns the new record together with the
  exception it raised, if any.
* `Cursor` (RADOS.cc 1196-1293) and `Object` (RADOS.cc 46-112) wrap an
  `hobject_t` and an `object_t`; the members of `hobject_t`, which RADOS.cc
  only calls, are parameters of the Cursor functions.
* `watch`, `unwatch` and `execute` (RADOS.cc 680-744, 918-1061) are modelled
  by the session calls their bodies make and by what the completion handler
  they pass to the session does when it is called.
* `stat_fs`, `Builder::build` and `lookup_pool` (RADOS.cc 581-650, 751-779,
  908-914) are modelled by the events of one run, the results of their
  collaborators being parameters.
* The osd error category (osd/error_code.cc) and the test helper
  `round_diff_interval` (test/librbd/test_librbd.cc 3866-3885) are pure
  functions.
-/

namespace RADOS

/-! ## Error codes and buffers -/

/-- A `bs::error_code`: a numeric value and the identity of its category. -/
structure error_code where
  value : Int
  category : Nat
deriving DecidableEq, Repr

/-- The identity of `bs::system_category()`. -/
def system_category : Nat := 0

/-- The default-constructed `bs::error_code`: value 0, system category. -/
def error_code.success : error_code := ⟨0, system_category⟩

/-- The conversion of a `bs::error_code` to `bool`: true when it holds an
error, that is when its value is not zero. -/
def error_code.failed (e : error_code) : Bool := e.value != 0

/-- A `ceph::bufferlist`, as the list of its bytes. -/
abbrev bufferlist := List Nat

/-! ## NotifyHandler -/

/-- What a `NotifyHandler` does to the outside world. -/
inductive Event where
  /-- `objecter->linger_cancel(op)` -/
  | linger_cancel (op : Nat)
  /-- `ca::dispatch(std::move(c), res, std::move(rbl))` -/
  | dispatch (res : error_code) (rbl : bufferlist)
  /-- `ceph_assert(c)` found `c` null: the process aborts -/
  | assert_failed
deriving DecidableEq, Repr

/-- The fields of `struct NotifyHandler` (RADOS.cc 1070-1080).  `op` names
the `Objecter::LingerOp*`; `c` tells whether the
`std::unique_ptr<RADOS::NotifyComp>` still owns the caller's completion. -/
structure NotifyHandler where
  op : Nat
  c : Bool
  acked : Bool
  finished : Bool
  res : error_code
  rbl : bufferlist
deriving DecidableEq, Repr

/-- A handler together with the events it has caused so far and whether
the process has aborted on a failed assertion. -/
structure Exec where
  h : NotifyHandler
  trace : List Event
  aborted : Bool
deriving DecidableEq, Repr

/-- The constructor of `NotifyHandler` (RADOS.cc 1082-1086) with the member
initialisers of lines 1077-1080, as `RADOS::notify` calls it with the
caller's completion. -/
def NotifyHandler.init (op : Nat) : Exec :=
  { h := { op := op, c := true, acked := false, finished := false,
           res := error_code.success, rbl := [] },
    trace := [], aborted := false }

/-- The body of `NotifyHandler::maybe_cleanup` (RADOS.cc 1112-1120). -/
def NotifyHandler.maybe_cleanup (s : Exec) (ec : error_code) : Exec :=
  let h1 : NotifyHandler :=
    if !s.h.res.failed && ec.failed then { s.h with res := ec } else s.h
  if (h1.acked && h1.finished) || h1.res.failed then
    let t1 := s.trace ++ [Event.linger_cancel h1.op]
    if h1.c then
      { h := { h1 with c := false, rbl := [] },
        trace := t1 ++ [Event.dispatch h1.res h1.rbl],
        aborted := s.aborted }
    else
      { h := h1, trace := t1 ++ [Event.assert_failed], aborted := true }
  else
    { s with h := h1 }

/-- The continuation posted by `NotifyHandler::handle_ack`
(RADOS.cc 1089-1097); the buffer argument is unnamed and unused. -/
def NotifyHandler.handle_ack (s : Exec) (ec : error_code) (_bl : bufferlist) :
    Exec :=
  NotifyHandler.maybe_cleanup { s with h := { s.h with acked := true } } ec

/-- The continuation posted by `NotifyHandler::operator()`
(RADOS.cc 1101-1109), the notify-finish callback; the lambda captures
`this`, `ec` and `p` only, so `bl` does not reach the handler. -/
def NotifyHandler.call (s : Exec) (ec : error_code) (_bl : bufferlist) :
    Exec :=
  NotifyHandler.maybe_cleanup { s with h := { s.h with finished := true } } ec

/-- The two signals the session delivers to a `NotifyHandler`. -/
inductive Signal where
  | ack (ec : error_code) (bl : bufferlist)
  | finish (ec : error_code) (bl : bufferlist)
deriving DecidableEq, Repr

/-- The error code a signal carries. -/
def Signal.ec : Signal → error_code
  | .ack ec _ => ec
  | .finish ec _ => ec

/-- One continuation run by the strand; nothing runs once the process has
aborted. -/
def NotifyHandler.process (s : Exec) (sig : Signal) : Exec :=
  if s.aborted then s else
  match sig with
  | .ack ec bl => NotifyHandler.handle_ack s ec bl
  | .finish ec bl => NotifyHandler.call s ec bl

/-- The strand processes the posted continuations one at a time, in order. -/
def NotifyHandler.run (s : Exec) (sigs : List Signal) : Exec :=
  sigs.foldl NotifyHandler.process s

/-- The completions dispatched in a trace, in order. -/
def dispatched : List Event → List (error_code × bufferlist)
  | [] => []
  | Event.dispatch res rbl :: t => (res, rbl) :: dispatched t
  | _ :: t => dispatched t

/-- How many times a trace calls `linger_cancel` on `op`. -/
def cancels (op : Nat) : List Event → Nat
  | [] => 0
  | Event.linger_cancel o :: t => (if o = op then 1 else 0) + cancels op t
  | _ :: t => cancels op t

/-- The errno `ETIMEDOUT`. -/
def ETIMEDOUT : Int := 110

/-! ## IOContext -/

/-- The errno `EINVAL`. -/
def EINVAL : Int := 22

/-- A `bs::system_error`: the error code it carries and its message. -/
structure system_error where
  code : error_code
  what : String
deriving DecidableEq, Repr

/-- The result of calling a mutator that may raise: the state of the object
after the call and the exception that left the call, if any. -/
structure Outcome (σ : Type) where
  state : σ
  thrown : Option system_error
deriving DecidableEq, Repr

/-- `CEPH_NOSNAP`, the constant `((__u64)(-2))` of include/rados.h (its
definition is not part of RADOS.cc). -/
def CEPH_NOSNAP : Nat := 2 ^ 64 - 2

/-- The fields of `object_locator_t` that RADOS.cc reads and writes. -/
structure object_locator_t where
  pool : Int
  key : String
  nspace : String
  hash : Int
deriving DecidableEq, Repr

/-- A `SnapContext`: a sequence number and a vector of snapshot ids. -/
structure SnapContext where
  seq : Nat
  snaps : List Nat
deriving DecidableEq, Repr

/-- Modelled from the spec: `SnapContext::is_valid` is not defined in
RADOS.cc.  The spec words the rule as "sequence number ≥ all listed
snapshot ids". -/
def SnapContext.is_valid (n : SnapContext) : Bool :=
  n.snaps.all (fun s => decide (s ≤ n.seq))

/-- Modelled from the spec: `SnapContext::clear` is not defined in RADOS.cc;
it resets the context to the one that "returns no value", sequence
number 0 and no snapshot ids. -/
def SnapContext.clear (_n : SnapContext) : SnapContext := ⟨0, []⟩

/-- Modelled from the spec: `SnapContext::empty` is not defined in RADOS.cc;
a context is empty when its sequence number is 0. -/
def SnapContext.empty (n : SnapContext) : Bool := n.seq == 0

/-- The struct `IOContextImpl` (RADOS.cc 120-124). -/
structure IOContextImpl where
  oloc : object_locator_t
  snap_seq : Nat
  snapc : SnapContext
deriving DecidableEq, Repr

/-- Modelled from the spec: the default constructor of `object_locator_t`
is declared outside RADOS.cc.  A new locator carries neither of the
"optional locator key or hash": its strings are empty and its hash is the
negative value -1 that `clear_hash` also stores; its pool is -1. -/
def object_locator_t.default : object_locator_t :=
  { pool := -1, key := "", nspace := "", hash := -1 }

/-- Modelled from the spec: the default constructor of `SnapContext` is
declared outside RADOS.cc.  A new context holds no write snap-context:
sequence number 0 and no snapshot ids. -/
def SnapContext.default : SnapContext := ⟨0, []⟩

/-- The constructor `IOContext::IOContext()` (RADOS.cc 126-129): a
default-constructed `IOContextImpl` (RADOS.cc 120-124), whose `snap_seq`
is initialised to `CEPH_NOSNAP`. -/
def IOContext.init : IOContextImpl :=
  { oloc := object_locator_t.default,
    snap_seq := CEPH_NOSNAP,
    snapc := SnapContext.default }

/-- The accessor `IOContext::pool() const` (RADOS.cc 174-176). -/
def IOContext.pool (c : IOContextImpl) : Int := c.oloc.pool

/-- The mutator `IOContext::pool(int64_t)` (RADOS.cc 178-180). -/
def IOContext.set_pool (c : IOContextImpl) (_pool : Int) : IOContextImpl :=
  { c with oloc := { c.oloc with pool := _pool } }

/-- The accessor `IOContext::ns() const` (RADOS.cc 182-184). -/
def IOContext.ns (c : IOContextImpl) : String := c.oloc.nspace

/-- The mutators `IOContext::ns(string_view)` and `ns(string&&)`
(RADOS.cc 186-192). -/
def IOContext.set_ns (c : IOContextImpl) (_ns : String) : IOContextImpl :=
  { c with oloc := { c.oloc with nspace := _ns } }

/-- The accessor `IOContext::key() const` (RADOS.cc 194-200). -/
def IOContext.key (c : IOContextImpl) : Option String :=
  if c.oloc.key = "" then none else some c.oloc.key

/-- The exception raised for an empty key (RADOS.cc 205-207, 217-219). -/
def empty_key_error : system_error :=
  ⟨⟨EINVAL, system_category⟩, "An empty key is no key at all."⟩

/-- The mutator `IOContext::key(std::string_view)` (RADOS.cc 202-212). -/
def IOContext.set_key (c : IOContextImpl) (_key : String) :
    Outcome IOContextImpl :=
  if _key = "" then
    { state := c, thrown := some empty_key_error }
  else
    { state := { c with oloc := { c.oloc with hash := -1, key := _key } },
      thrown := none }

/-- The mutator `IOContext::key(std::string&&)` (RADOS.cc 214-224). -/
def IOContext.set_key_move (c : IOContextImpl) (_key : String) :
    Outcome IOContextImpl :=
  if _key = "" then
    { state := c, thrown := some empty_key_error }
  else
    { state := { c with oloc := { c.oloc with hash := -1, key := _key } },
      thrown := none }

/-- The mutator `IOContext::clear_key()` (RADOS.cc 226-230). -/
def IOContext.clear_key (c : IOContextImpl) : IOContextImpl :=
  { c with oloc := { c.oloc with hash := -1, key := "" } }

/-- The accessor `IOContext::hash() const` (RADOS.cc 232-238). -/
def IOContext.hash (c : IOContextImpl) : Option Int :=
  if c.oloc.hash < 0 then none else some c.oloc.hash

/-- The exception raised for a negative hash (RADOS.cc 243-245). -/
def negative_hash_error : system_error :=
  ⟨⟨EINVAL, system_category⟩, "A negative hash is no hash at all."⟩

/-- The mutator `IOContext::hash(int64_t)` (RADOS.cc 240-250). -/
def IOContext.set_hash (c : IOContextImpl) (_hash : Int) :
    Outcome IOContextImpl :=
  if _hash < 0 then
    { state := c, thrown := some negative_hash_error }
  else
    { state := { c with oloc := { c.oloc with hash := _hash, key := "" } },
      thrown := none }

/-- The mutator `IOContext::clear_hash()` (RADOS.cc 252-256). -/
def IOContext.clear_hash (c : IOContextImpl) : IOContextImpl :=
  { c with oloc := { c.oloc with hash := -1, key := "" } }

/-- The accessor `IOContext::read_snap() const` (RADOS.cc 259-265). -/
def IOContext.read_snap (c : IOContextImpl) : Option Nat :=
  if c.snap_seq = CEPH_NOSNAP then none else some c.snap_seq

/-- The mutator `IOContext::read_snap(optional<uint64_t>)`
(RADOS.cc 266-269). -/
def IOContext.set_read_snap (c : IOContextImpl) (_snapid : Option Nat) :
    IOContextImpl :=
  { c with snap_seq := _snapid.getD CEPH_NOSNAP }

/-- The accessor `IOContext::write_snap_context() const`
(RADOS.cc 271-281). -/
def IOContext.write_snap_context (c : IOContextImpl) :
    Option (Nat × List Nat) :=
  if c.snapc.empty then none else some (c.snapc.seq, c.snapc.snaps)

/-- The exception raised for an invalid snap context (RADOS.cc 291-293). -/
def invalid_snapc_error : system_error :=
  ⟨⟨EINVAL, system_category⟩, "Invalid snap context."⟩

/-- The mutator `IOContext::write_snap_context(optional<pair<...>>)`
(RADOS.cc 283-299).  The validity test `SnapContext::is_valid`, which
RADOS.cc only calls, is the parameter `is_valid`. -/
def IOContext.set_write_snap_context (is_valid : SnapContext → Bool)
    (c : IOContextImpl) (_snapc : Option (Nat × List Nat)) :
    Outcome IOContextImpl :=
  match _snapc with
  | none => { state := { c with snapc := c.snapc.clear }, thrown := none }
  | some p =>
    let n : SnapContext := ⟨p.1, p.2⟩
    if !is_valid n then
      { state := c, thrown := some invalid_snapc_error }
    else
      { state := { c with snapc := n }, thrown := none }

/-- The copy assignment `IOContext::operator=(const IOContext&)`
(RADOS.cc 156-160): the left side takes the value of the right side. -/
def IOContext.assign (_lhs rhs : IOContextImpl) : IOContextImpl := rhs

/-- The contexts a program can build: a freshly constructed one, and what
any mutator call (raising or not) or copy assignment makes of one. -/
inductive IOContext.Reachable (is_valid : SnapContext → Bool) :
    IOContextImpl → Prop where
  | fresh : Reachable is_valid IOContext.init
  | pool {c} (p : Int) : Reachable is_valid c →
      Reachable is_valid (IOContext.set_pool c p)
  | ns {c} (s : String) : Reachable is_valid c →
      Reachable is_valid (IOContext.set_ns c s)
  | key {c} (k : String) : Reachable is_valid c →
      Reachable is_valid (IOContext.set_key c k).state
  | key_move {c} (k : String) : Reachable is_valid c →
      Reachable is_valid (IOContext.set_key_move c k).state
  | clear_key {c} : Reachable is_valid c →
      Reachable is_valid (IOContext.clear_key c)
  | hash {c} (h : Int) : Reachable is_valid c →
      Reachable is_valid (IOContext.set_hash c h).state
  | clear_hash {c} : Reachable is_valid c →
      Reachable is_valid (IOContext.clear_hash c)
  | read_snap {c} (o : Option Nat) : Reachable is_valid c →
      Reachable is_valid (IOContext.set_read_snap c o)
  | write_snap_context {c} (o : Option (Nat × List Nat)) :
      Reachable is_valid c →
      Reachable is_valid (IOContext.set_write_snap_context is_valid c o).state
  | assign {a b} : Reachable is_valid a → Reachable is_valid b →
      Reachable is_valid (IOContext.assign a b)

/-! ## Cursor -/

/-- The members of `hobject_t` that the Cursor code of RADOS.cc calls.
`hobject_t` is declared in common/hobject.h, outside RADOS.cc, so its
members are parameters of the Cursor functions below. -/
structure hobject_ops (H : Type) where
  /-- `hobject_t()` -/
  ctor : H
  /-- `hobject_t::get_max()` -/
  get_max : H
  /-- `h.is_max()` -/
  is_max : H → Bool
  /-- `h.to_str()` -/
  to_str : H → String
  /-- `h.parse(s)`: whether `s` was accepted, and `h` after the call -/
  parse : H → String → Bool × H
  /-- `operator ==` of `hobject_t` -/
  eq : H → H → Bool
  /-- `operator !=` of `hobject_t` -/
  ne : H → H → Bool
  /-- `operator <` of `hobject_t` -/
  lt : H → H → Bool
  /-- `operator <=` of `hobject_t` -/
  le : H → H → Bool
  /-- `operator >=` of `hobject_t` -/
  ge : H → H → Bool
  /-- `operator >` of `hobject_t` -/
  gt : H → H → Bool

/-- A `Cursor`: the `hobject_t` held in its `impl` storage. -/
structure Cursor (H : Type) where
  impl : H
deriving DecidableEq, Repr

/-- The constructor `Cursor::Cursor()` (RADOS.cc 1196-1199). -/
def Cursor.ctor {H : Type} (ops : hobject_ops H) : Cursor H := ⟨ops.ctor⟩

/-- The constructor `Cursor::Cursor(end_magic_t)` (RADOS.cc 1201-1204). -/
def Cursor.ctor_end_magic {H : Type} (ops : hobject_ops H) : Cursor H :=
  ⟨ops.get_max⟩

/-- The function `Cursor::begin()` (RADOS.cc 1211-1214). -/
def Cursor.begin {H : Type} (ops : hobject_ops H) : Cursor H :=
  Cursor.ctor ops

/-- The function `Cursor::end()` (RADOS.cc 1216-1219). -/
def Cursor.end_ {H : Type} (ops : hobject_ops H) : Cursor H :=
  Cursor.ctor_end_magic ops

/-- The operator `==` on cursors (RADOS.cc 1248-1251). -/
def Cursor.eq {H : Type} (ops : hobject_ops H) (lhs rhs : Cursor H) : Bool :=
  ops.eq lhs.impl rhs.impl

/-- The operator `!=` on cursors (RADOS.cc 1253-1256). -/
def Cursor.ne {H : Type} (ops : hobject_ops H) (lhs rhs : Cursor H) : Bool :=
  ops.ne lhs.impl rhs.impl

/-- The operator `<` on cursors (RADOS.cc 1258-1261). -/
def Cursor.lt {H : Type} (ops : hobject_ops H) (lhs rhs : Cursor H) : Bool :=
  ops.lt lhs.impl rhs.impl

/-- The operator `<=` on cursors (RADOS.cc 1263-1266). -/
def Cursor.le {H : Type} (ops : hobject_ops H) (lhs rhs : Cursor H) : Bool :=
  ops.le lhs.impl rhs.impl

/-- The operator `>=` on cursors (RADOS.cc 1268-1271). -/
def Cursor.ge {H : Type} (ops : hobject_ops H) (lhs rhs : Cursor H) : Bool :=
  ops.ge lhs.impl rhs.impl

/-- The operator `>` on cursors (RADOS.cc 1273-1276). -/
def Cursor.gt {H : Type} (ops : hobject_ops H) (lhs rhs : Cursor H) : Bool :=
  ops.gt lhs.impl rhs.impl

/-- The function `Cursor::to_str() const` (RADOS.cc 1278-1283). -/
def Cursor.to_str {H : Type} (ops : hobject_ops H) (c : Cursor H) : String :=
  if ops.is_max c.impl then "MAX" else ops.to_str c.impl

/-- The function `Cursor::from_str(const std::string&)`
(RADOS.cc 1285-1293): `parse` runs on the `hobject_t` of a
default-constructed cursor. -/
def Cursor.from_str {H : Type} (ops : hobject_ops H) (s : String) :
    Option (Cursor H) :=
  let e : Cursor H := Cursor.ctor ops
  let r := ops.parse e.impl s
  if !r.1 then none else some ⟨r.2⟩

/-- Modelled from the spec: what the missing `hobject_t::get_max` and
`hobject_t::is_max` have to do with each other.  The spec calls `end()`
"the sentinel maximal cursor": `is_max` holds of `get_max()`. -/
def hobject_ops.max_is_max {H : Type} (ops : hobject_ops H) : Prop :=
  ops.is_max ops.get_max = true

/-- Modelled from the spec: a small instance of the `hobject_t` members on
which the Cursor functions can be evaluated.  A position is the maximal
sentinel (`none`) or a number (`some n`, the default being `some 0`),
"totally ordered" with the sentinel on top; the string of `some n` is `n`
times the letter `x`; the parser accepts `"MAX"` and strings of `x` only. -/
def hobject_sample : hobject_ops (Option Nat) where
  ctor := some 0
  get_max := none
  is_max h := h.isNone
  to_str h := String.mk (List.replicate (h.getD 0) 'x')
  parse h s :=
    if s = "MAX" then (true, none)
    else if s.data.all (fun ch => ch == 'x') then (true, some s.length)
    else (false, h)
  eq a b := a == b
  ne a b := a != b
  lt a b := match a, b with
    | some x, some y => decide (x < y)
    | some _, none => true
    | none, _ => false
  le a b := match a, b with
    | some x, some y => decide (x ≤ y)
    | _, none => true
    | none, some _ => false
  ge a b := match a, b with
    | some x, some y => decide (y ≤ x)
    | none, _ => true
    | some _, none => false
  gt a b := match a, b with
    | some x, some y => decide (y < x)
    | none, some _ => true
    | _, none => false

/-- Modelled from the spec: `hobject_t`, its constructors and its
comparison operators are declared in common/hobject.h, outside the sources.
The spec describes a position as "totally-ordered", with the "three special
states: `begin()` (minimal), `end()` (maximal sentinel ...), and ordinary
positions".  A position is modelled as the maximal sentinel `max`, or as
`pos rank`, a position placed by its rank in the total order of the
positions that are not the sentinel. -/
inductive hobject_t where
  | pos (rank : Nat)
  | max
deriving DecidableEq, Repr

/-- Modelled from the spec: the default constructor `hobject_t()`, the
position of `begin()`, which the spec calls "minimal": rank 0. -/
def hobject_t.ctor : hobject_t := hobject_t.pos 0

/-- Modelled from the spec: `hobject_t::get_max()`, the position of
`end()`, the "maximal sentinel". -/
def hobject_t.get_max : hobject_t := hobject_t.max

/-- Modelled from the spec: `hobject_t::is_max()`, whether the position is
the maximal sentinel. -/
def hobject_t.is_max : hobject_t → Bool
  | hobject_t.max => true
  | hobject_t.pos _ => false

/-- Modelled from the spec: `operator <` of `hobject_t`, the "total order"
of positions: by rank, the sentinel above every rank. -/
def hobject_t.lt : hobject_t → hobject_t → Bool
  | hobject_t.pos x, hobject_t.pos y => decide (x < y)
  | hobject_t.pos _, hobject_t.max => true
  | hobject_t.max, _ => false

/-- Modelled from the spec: `operator ==` of `hobject_t`. -/
def hobject_t.eq (l r : hobject_t) : Bool := decide (l = r)

/-- Modelled from the spec: `operator !=` of `hobject_t`. -/
def hobject_t.ne (l r : hobject_t) : Bool := !hobject_t.eq l r

/-- Modelled from the spec: `operator <=` of `hobject_t`: below or equal. -/
def hobject_t.le (l r : hobject_t) : Bool :=
  hobject_t.lt l r || hobject_t.eq l r

/-- Modelled from the spec: `operator >=` of `hobject_t`. -/
def hobject_t.ge (l r : hobject_t) : Bool := hobject_t.le r l

/-- Modelled from the spec: `operator >` of `hobject_t`. -/
def hobject_t.gt (l r : hobject_t) : Bool := hobject_t.lt r l

/-- The members of the modelled `hobject_t`, for the Cursor functions; the
string form and the parser, which the order does not involve, stay
parameters. -/
def hobject_t.ops (to_str : hobject_t → String)
    (parse : hobject_t → String → Bool × hobject_t) :
    hobject_ops hobject_t where
  ctor := hobject_t.ctor
  get_max := hobject_t.get_max
  is_max := hobject_t.is_max
  to_str := to_str
  parse := parse
  eq := hobject_t.eq
  ne := hobject_t.ne
  lt := hobject_t.lt
  le := hobject_t.le
  ge := hobject_t.ge
  gt := hobject_t.gt

/-! ## Object -/

/-- The part of `object_t` (include/object.h) that RADOS.cc reads: its
`name`. -/
structure object_t where
  name : String
deriving DecidableEq, Repr

/-- Modelled from the spec: the constructor `object_t(s)` is declared
outside RADOS.cc.  An object is identified "by name": the new `object_t`
has the name `s`. -/
def object_t.ctor (s : String) : object_t := ⟨s⟩

/-- Modelled from the spec: `operator ==` of `object_t` is declared outside
RADOS.cc.  Objects are compared "using internal name ordering". -/
def object_t.eq (l r : object_t) : Bool := decide (l.name = r.name)

/-- Modelled from the spec: `operator !=` of `object_t`, by name. -/
def object_t.ne (l r : object_t) : Bool := decide (l.name ≠ r.name)

/-- Modelled from the spec: `operator <` of `object_t`, the order of the
names as strings, character by character. -/
def object_t.lt (l r : object_t) : Bool :=
  decide (l.name.toList < r.name.toList)

/-- Modelled from the spec: `operator <=` of `object_t`, by name. -/
def object_t.le (l r : object_t) : Bool :=
  decide (l.name.toList ≤ r.name.toList)

/-- Modelled from the spec: `operator >=` of `object_t`, by name. -/
def object_t.ge (l r : object_t) : Bool :=
  decide (r.name.toList ≤ l.name.toList)

/-- Modelled from the spec: `operator >` of `object_t`, by name. -/
def object_t.gt (l r : object_t) : Bool :=
  decide (r.name.toList < l.name.toList)

/-- An `Object`: the `object_t` held in its `impl` storage. -/
structure Object where
  impl : object_t
deriving DecidableEq, Repr

/-- The constructors `Object::Object(std::string_view)`,
`Object(std::string&&)` and `Object(const std::string&)`
(RADOS.cc 46-59). -/
def Object.ctor (s : String) : Object := ⟨object_t.ctor s⟩

/-- The conversion `Object::operator std::string_view() const`
(RADOS.cc 84-86). -/
def Object.string_view (o : Object) : String := o.impl.name

/-- The operator `<` on objects (RADOS.cc 88-91). -/
def Object.lt (lhs rhs : Object) : Bool := object_t.lt lhs.impl rhs.impl

/-- The operator `<=` on objects (RADOS.cc 92-95). -/
def Object.le (lhs rhs : Object) : Bool := object_t.le lhs.impl rhs.impl

/-- The operator `>=` on objects (RADOS.cc 96-99). -/
def Object.ge (lhs rhs : Object) : Bool := object_t.ge lhs.impl rhs.impl

/-- The operator `>` on objects (RADOS.cc 100-103). -/
def Object.gt (lhs rhs : Object) : Bool := object_t.gt lhs.impl rhs.impl

/-- The operator `==` on objects (RADOS.cc 105-108). -/
def Object.eq (lhs rhs : Object) : Bool := object_t.eq lhs.impl rhs.impl

/-- The operator `!=` on objects (RADOS.cc 109-112). -/
def Object.ne (lhs rhs : Object) : Bool := object_t.ne lhs.impl rhs.impl

/-! ## Operations and their submission -/

/-- The two watch sub-operation kinds RADOS.cc passes to
`ObjectOperation::watch`: `CEPH_OSD_WATCH_OP_WATCH` and
`CEPH_OSD_WATCH_OP_UNWATCH`. -/
inductive WatchKind where
  | WATCH
  | UNWATCH
deriving DecidableEq, Repr

/-- A member call made on an `ObjectOperation` (osdc/Objecter.h, outside
RADOS.cc), with the arguments RADOS.cc passes; `timeout` is `none` when
the call leaves the argument out. -/
inductive OSDOp where
  | watch (cookie : Nat) (op : WatchKind) (timeout : Option Int)
  | create (exclusive : Bool)
  | write (off : Nat) (bl : bufferlist)
  | write_full (bl : bufferlist)
  | remove
  | truncate (off : Nat)
  | zero (off len : Nat)
deriving DecidableEq, Repr

/-- An `ObjectOperation`, as the member calls made on it, in order. -/
abbrev ObjectOperation := List OSDOp

/-- The struct `OpImpl` (RADOS.cc 303-314); `mtime` is a
`std::optional<ceph::real_time>`, a time being a number. -/
structure OpImpl where
  op : ObjectOperation
  mtime : Option Nat
deriving DecidableEq, Repr

/-- The constructor `Op::Op()` (RADOS.cc 316-319): a default `OpImpl`. -/
def Op.ctor : OpImpl := { op := [], mtime := none }

/-- The member `WriteOp::set_mtime` (RADOS.cc 490-493). -/
def WriteOp.set_mtime (o : OpImpl) (t : Nat) : OpImpl :=
  { o with mtime := some t }

/-- The member `WriteOp::create` (RADOS.cc 494-496). -/
def WriteOp.create (o : OpImpl) (exclusive : Bool) : OpImpl :=
  { o with op := o.op ++ [OSDOp.create exclusive] }

/-- The member `WriteOp::write` (RADOS.cc 498-500). -/
def WriteOp.write (o : OpImpl) (off : Nat) (bl : bufferlist) : OpImpl :=
  { o with op := o.op ++ [OSDOp.write off bl] }

/-- The member `WriteOp::write_full` (RADOS.cc 502-504). -/
def WriteOp.write_full (o : OpImpl) (bl : bufferlist) : OpImpl :=
  { o with op := o.op ++ [OSDOp.write_full bl] }

/-- The member `WriteOp::remove` (RADOS.cc 514-516). -/
def WriteOp.remove (o : OpImpl) : OpImpl :=
  { o with op := o.op ++ [OSDOp.remove] }

/-- The member `WriteOp::truncate` (RADOS.cc 518-520). -/
def WriteOp.truncate (o : OpImpl) (off : Nat) : OpImpl :=
  { o with op := o.op ++ [OSDOp.truncate off] }

/-- The member `WriteOp::zero` (RADOS.cc 522-524). -/
def WriteOp.zero (o : OpImpl) (off len : Nat) : OpImpl :=
  { o with op := o.op ++ [OSDOp.zero off len] }

/-- A call of a `WriteOp` member.  The members of RADOS.cc 490-524 are
listed; the remaining ones have the shape of `create`: one member call on
`op`. -/
inductive WriteOpCall where
  | set_mtime (t : Nat)
  | create (exclusive : Bool)
  | write (off : Nat) (bl : bufferlist)
  | write_full (bl : bufferlist)
  | remove
  | truncate (off : Nat)
  | zero (off len : Nat)
deriving DecidableEq, Repr

/-- One member call applied to a `WriteOp`. -/
def WriteOp.apply (o : OpImpl) : WriteOpCall → OpImpl
  | .set_mtime t => WriteOp.set_mtime o t
  | .create e => WriteOp.create o e
  | .write off bl => WriteOp.write o off bl
  | .write_full bl => WriteOp.write_full o bl
  | .remove => WriteOp.remove o
  | .truncate off => WriteOp.truncate o off
  | .zero off len => WriteOp.zero o off len

/-- A `WriteOp` built by a sequence of member calls on a new one. -/
def WriteOp.build (calls : List WriteOpCall) : OpImpl :=
  calls.foldl WriteOp.apply Op.ctor

/-- The value given to the last `set_mtime` call of a sequence of member
calls, if there is one. -/
def last_set_mtime : List WriteOpCall → Option Nat
  | [] => none
  | c :: rest =>
    match last_set_mtime rest with
    | some t => some t
    | none => match c with
      | .set_mtime t => some t
      | _ => none

/-- The arguments of a call of `Objecter::mutate`. -/
structure MutateCall where
  oid : object_t
  oloc : object_locator_t
  op : ObjectOperation
  snapc : SnapContext
  mtime : Nat
  flags : Nat
deriving DecidableEq, Repr

/-- The locator the pool overloads build (RADOS.cc 724-729, 947-952,
1040-1045): a default `object_locator_t` with the pool, and the namespace
and key when given. -/
def pool_oloc (pool : Int) (ns key : Option String) : object_locator_t :=
  let o1 := { object_locator_t.default with pool := pool }
  let o2 := match ns with
    | some n => { o1 with nspace := n }
    | none => o1
  match key with
  | some k => { o2 with key := k }
  | none => o2

/-- The function `RADOS::execute` for a `WriteOp` and an `IOContext`
(RADOS.cc 680-696): the `mutate` call it makes.  `now` is what
`ceph::real_clock::now()` returns when it is called. -/
def execute_write (now : Nat) (o : Object) (ioc : IOContextImpl)
    (op : OpImpl) : MutateCall :=
  let flags := 0
  let mtime := match op.mtime with
    | some t => t
    | none => now
  { oid := o.impl, oloc := ioc.oloc, op := op.op, snapc := ioc.snapc,
    mtime := mtime, flags := flags }

/-- The function `RADOS::execute` for a `WriteOp` and a pool
(RADOS.cc 719-744): the `mutate` call it makes. -/
def execute_write_pool (now : Nat) (o : Object) (pool : Int) (op : OpImpl)
    (ns key : Option String) : MutateCall :=
  let flags := 0
  let oloc := pool_oloc pool ns key
  let mtime := match op.mtime with
    | some t => t
    | none => now
  { oid := o.impl, oloc := oloc, op := op.op, snapc := SnapContext.default,
    mtime := mtime, flags := flags }

/-! ## Watch and unwatch -/

/-- The arguments of a call of `Objecter::linger_watch`, the completion
apart. -/
structure LingerWatchCall where
  linger_op : Nat
  op : ObjectOperation
  snapc : SnapContext
  mtime : Nat
  bl : bufferlist
deriving DecidableEq, Repr

/-- What `watch` and `unwatch` and their completion handlers do to the
session and to the caller. -/
inductive Action where
  /-- `objecter->linger_register(oid, oloc, flags)` -/
  | linger_register (oid : object_t) (oloc : object_locator_t) (flags : Nat)
  /-- `linger_op->handle = std::move(cb)` -/
  | set_handle (linger_op : Nat)
  /-- `objecter->linger_watch(...)`, the submission of the watch -/
  | linger_watch (w : LingerWatchCall)
  /-- `objecter->mutate(...)`, the submission of a mutation -/
  | mutate (m : MutateCall)
  /-- `objecter->linger_cancel(linger_op)` -/
  | linger_cancel (linger_op : Nat)
  /-- `ca::dispatch(std::move(c), ec)` on a `SimpleOpComp` -/
  | dispatch_simple (ec : error_code)
  /-- `ca::dispatch(std::move(c), e, cookie)` on a `WatchComp` -/
  | dispatch_watch (e : error_code) (cookie : Nat)
deriving DecidableEq, Repr

/-- An asynchronous call: what its body does before it returns, the
submission included, and what the completion handler it passed to the
session does when the session calls it with a result. -/
structure Async (A : Type) where
  body : List Action
  on_complete : A → List Action

/-- Everything an asynchronous call has done: its body, followed by its
completion handler once the session has completed the submission with
`outcome`. -/
def Async.timeline {A : Type} (x : Async A) (outcome : Option A) :
    List Action :=
  match outcome with
  | none => x.body
  | some a => x.body ++ x.on_complete a

/-- The function `RADOS::watch` with an `IOContext` (RADOS.cc 918-938).
`linger_op` is the registration `linger_register` returns and `get_cookie`
its member `LingerOp::get_cookie` (osdc/Objecter.h); `now` is the reading
of `ceph::real_clock::now()`.  The timeout reaches `op.watch` as the count
of `timeout.value_or(0s)`. -/
def watch (get_cookie : Nat → Nat) (now : Nat) (linger_op : Nat)
    (o : Object) (ioc : IOContextImpl) (timeout : Option Int) :
    Async (error_code × bufferlist) :=
  let cookie := get_cookie linger_op
  let op : ObjectOperation :=
    [OSDOp.watch cookie WatchKind.WATCH (some (timeout.getD 0))]
  let bl : bufferlist := []
  { body := [Action.linger_register o.impl ioc.oloc 0,
             Action.set_handle linger_op,
             Action.linger_watch
               { linger_op := linger_op, op := op, snapc := ioc.snapc,
                 mtime := now, bl := bl }],
    on_complete := fun r => [Action.dispatch_watch r.1 cookie] }

/-- The function `RADOS::watch` with a pool (RADOS.cc 940-967). -/
def watch_pool (get_cookie : Nat → Nat) (now : Nat) (linger_op : Nat)
    (o : Object) (pool : Int) (timeout : Option Int)
    (ns key : Option String) : Async (error_code × bufferlist) :=
  let oloc := pool_oloc pool ns key
  let cookie := get_cookie linger_op
  let op : ObjectOperation :=
    [OSDOp.watch cookie WatchKind.WATCH (some (timeout.getD 0))]
  let bl : bufferlist := []
  { body := [Action.linger_register o.impl oloc 0,
             Action.set_handle linger_op,
             Action.linger_watch
               { linger_op := linger_op, op := op,
                 snapc := SnapContext.default, mtime := now, bl := bl }],
    on_complete := fun r => [Action.dispatch_watch r.1 cookie] }

/-- The function `RADOS::unwatch` with an `IOContext`
(RADOS.cc 1014-1033).  The cookie is cast to the `LingerOp*` it is;
`base_oid` reads `linger_op->target.base_oid`. -/
def unwatch (base_oid : Nat → object_t) (now : Nat) (cookie : Nat)
    (ioc : IOContextImpl) : Async error_code :=
  let linger_op := cookie
  let op : ObjectOperation := [OSDOp.watch cookie WatchKind.UNWATCH none]
  { body := [Action.mutate
               { oid := base_oid linger_op, oloc := ioc.oloc, op := op,
                 snapc := ioc.snapc, mtime := now, flags := 0 }],
    on_complete := fun ec =>
      [Action.linger_cancel linger_op, Action.dispatch_simple ec] }

/-- The function `RADOS::unwatch` with a pool (RADOS.cc 1035-1061). -/
def unwatch_pool (base_oid : Nat → object_t) (now : Nat) (cookie : Nat)
    (pool : Int) (ns key : Option String) : Async error_code :=
  let oloc := pool_oloc pool ns key
  let linger_op := cookie
  let op : ObjectOperation := [OSDOp.watch cookie WatchKind.UNWATCH none]
  { body := [Action.mutate
               { oid := base_oid linger_op, oloc := oloc, op := op,
                 snapc := SnapContext.default, mtime := now, flags := 0 }],
    on_complete := fun ec =>
      [Action.linger_cancel linger_op, Action.dispatch_simple ec] }

/-- How many times a list of actions calls `linger_cancel` on
`linger_op`. -/
def linger_cancels (linger_op : Nat) : List Action → Nat
  | [] => 0
  | Action.linger_cancel l :: t =>
    (if l = linger_op then 1 else 0) + linger_cancels linger_op t
  | _ :: t => linger_cancels linger_op t

/-! ## stat_fs, Builder::build, lookup_pool -/

/-- What a call of `RADOS::stat_fs` comes to: the call of
`Objecter::get_fs_stats` with its pool argument, or the read of the value
of an empty `boost::optional` (its `operator*` requires a value to be
present). -/
inductive StatFs where
  | get_fs_stats (pool : Option Int)
  | empty_optional_read
deriving DecidableEq, Repr

/-- The function `RADOS::stat_fs` (RADOS.cc 908-914).  The local `pool` is
a new, empty `boost::optional`; the assignment `pool = *pool` reads that
local, not the parameter `_pool`. -/
def stat_fs (_pool : Option Int) : StatFs :=
  let pool : Option Int := none
  match _pool with
  | some _ =>
    match pool with
    | some v => StatFs.get_fs_stats (some v)
    | none => StatFs.empty_optional_read
  | none => StatFs.get_fs_stats pool

/-- What `Builder::build` and `make_with_cct` do with the caller's
completion `c`. -/
inductive BuildEvent where
  /-- `c->dispatch(std::move(c), ec, RADOS{...})`; `rados` tells whether
  the `RADOS` handed over holds an implementation (`false` for
  `RADOS{nullptr}`) -/
  | dispatch (ec : error_code) (rados : Bool)
  /-- `c->dispatch(...)` evaluated on a null `c`, moved from before -/
  | null_completion_used
deriving DecidableEq, Repr

/-- The state of a run of `Builder::build`: whether the
`std::unique_ptr<BuildComp>` still owns the completion, the events so far,
and whether the run has ended in the use of a null pointer. -/
structure BuildState where
  c : Bool
  trace : List BuildEvent
  crashed : Bool
deriving DecidableEq, Repr

/-- The statement `c->dispatch(std::move(c), ec, RADOS{...})`: it moves the
completion out of `c`; on a null `c` it dereferences a null pointer. -/
def BuildState.dispatch (s : BuildState) (ec : error_code) (rados : Bool) :
    BuildState :=
  if s.crashed then s
  else if s.c then
    { s with c := false, trace := s.trace ++ [BuildEvent.dispatch ec rados] }
  else
    { s with trace := s.trace ++ [BuildEvent.null_completion_used],
             crashed := true }

/-- What the collaborators of `Builder::build` return in one run: the
result of `parse_config_files`, the result of `set_val` for each entry of
`configs` in order, the builder's `no_mon_conf`, the result of
`get_monmap_and_config`, and the error code of the `bs::system_error`
thrown by `new detail::RADOS`, if it throws. -/
structure BuildEnv where
  parse_config_files : Int
  set_val : List Int
  no_mon_conf : Bool
  get_monmap_and_config : Int
  rados_ctor_throws : Option error_code
deriving DecidableEq, Repr

/-- The function `RADOS::make_with_cct` (RADOS.cc 637-650), the callback
passed to `wait_for_osd_map` being called once the map is there. -/
def make_with_cct (env : BuildEnv) (s : BuildState) : BuildState :=
  match env.rados_ctor_throws with
  | none => s.dispatch error_code.success true
  | some code => s.dispatch code false

/-- The function `RADOS::Builder::build` (RADOS.cc 581-635), from the
parsing of the configuration files on.  `to_error_code` is
`ceph::to_error_code` (common/error_code.h). -/
def Builder.build (to_error_code : Int → error_code) (env : BuildEnv) :
    BuildState :=
  let s0 : BuildState := { c := true, trace := [], crashed := false }
  let s1 :=
    if env.parse_config_files < 0 then
      s0.dispatch (to_error_code env.parse_config_files) false
    else s0
  let s2 := env.set_val.foldl
    (fun s r => if r < 0 then s.dispatch (to_error_code (-EINVAL)) false else s)
    s1
  let s3 :=
    if !env.no_mon_conf then
      if env.get_monmap_and_config < 0 then
        s2.dispatch (to_error_code env.get_monmap_and_config) false
      else s2
    else s2
  make_with_cct env s3

/-- The completions dispatched in a run of `Builder::build`. -/
def build_dispatches : List BuildEvent → Nat
  | [] => 0
  | BuildEvent.dispatch _ _ :: t => 1 + build_dispatches t
  | _ :: t => build_dispatches t

/-- The errno `ENOENT`. -/
def ENOENT : Int := 2

/-- What `RADOS::lookup_pool` and its callback do. -/
inductive LookupAction where
  /-- `objecter->wait_for_latest_osdmap(...)` -/
  | wait_for_latest_osdmap
  /-- `ca::dispatch(std::move(c), ec, id)` on the `LookupPoolComp` -/
  | dispatch (ec : error_code) (id : Int)
deriving DecidableEq, Repr

/-- The callback `RADOS::lookup_pool` passes to `wait_for_latest_osdmap`
(RADOS.cc 763-773): `ec` is the result of the refresh, `ret` what
`lookup_pg_pool_name` returns on the map then; `pool_dne` is
`osdc_errc::pool_dne`. -/
def lookup_pool_latest (pool_dne : error_code) (_ec : error_code)
    (ret : Int) : List LookupAction :=
  if ret < 0 then [LookupAction.dispatch pool_dne 0]
  else [LookupAction.dispatch error_code.success ret]

/-- The body of `RADOS::lookup_pool` (RADOS.cc 751-779): `ret` is what
`lookup_pg_pool_name` returns on the current map. -/
def lookup_pool_body (pool_dne : error_code) (ret : Int) :
    List LookupAction :=
  if ret < 0 then [LookupAction.wait_for_latest_osdmap]
  else if ret < 0 then [LookupAction.dispatch pool_dne 0]
  else [LookupAction.dispatch error_code.success ret]

/-- A whole run of `RADOS::lookup_pool`: the body and, when it asked for
the latest map, the callback called with the refresh result `ec` and the
lookup result `ret_latest` on the refreshed map. -/
def lookup_pool (pool_dne : error_code) (ret_now : Int) (ec : error_code)
    (ret_latest : Int) : List LookupAction :=
  let body := lookup_pool_body pool_dne ret_now
  if LookupAction.wait_for_latest_osdmap ∈ body then
    body ++ lookup_pool_latest pool_dne ec ret_latest
  else body

/-- The completions dispatched by a run of `lookup_pool`, in order. -/
def lookup_dispatched : List LookupAction → List (error_code × Int)
  | [] => []
  | LookupAction.dispatch ec id :: t => (ec, id) :: lookup_dispatched t
  | _ :: t => lookup_dispatched t

/-! ## The osd error category (osd/error_code.cc) -/

/-- An `interval_set<uint64_t>` (include/interval_set.h, outside the
sources), as the list of its intervals, each a start and a length. -/
abbrev interval_set := List (Nat × Nat)

/-- Whether the offset `x` lies in an interval of the set. -/
def interval_set.contains (s : interval_set) (x : Nat) : Bool :=
  s.any (fun i => decide (i.1 ≤ x) && decide (x < i.1 + i.2))

/-- The member `insert(start, len)` on an empty set. -/
def interval_set.insert (s : interval_set) (start len : Nat) : interval_set :=
  s ++ [(start, len)]

/-- The member `union_of`: the set holds the offsets of both. -/
def interval_set.union_of (s other : interval_set) : interval_set :=
  s ++ other

/-- The function `round_diff_interval` (test_librbd.cc 3866-3885), on
64-bit unsigned offsets and lengths. -/
def round_diff_interval (diff : interval_set) (object_size : Nat) :
    interval_set :=
  if object_size = 0 then diff
  else
    diff.foldl
      (fun rounded_diff it =>
        let off := it.1
        let len := it.2
        let off := off - off % object_size
        let len := (len + (object_size - len % object_size)) % 2 ^ 64
        let interval := interval_set.insert [] off len
        interval_set.union_of rounded_diff interval)
      []

/-! ## Theorems: NotifyHandler -/

/-- One processed signal keeps the invariant "an event has occurred only
if both signals were seen or `res` holds an error". -/
theorem process_keeps_decided (s : Exec) (sig : Signal)
    (hinv : s.trace ≠ [] →
      (s.h.acked = true ∧ s.h.finished = true) ∨ s.h.res.failed = true) :
    (NotifyHandler.process s sig).trace ≠ [] →
      ((NotifyHandler.process s sig).h.acked = true ∧
        (NotifyHandler.process s sig).h.finished = true) ∨
      (NotifyHandler.process s sig).h.res.failed = true := by
  obtain ⟨⟨op, c, acked, finished, res, rbl⟩, trace, aborted⟩ := s
  cases sig with
  | ack ec bl =>
    cases aborted <;> cases acked <;> cases finished <;> cases c <;>
      cases hr : res.failed <;> cases he : ec.failed <;>
      simp_all [NotifyHandler.process, NotifyHandler.handle_ack,
        NotifyHandler.maybe_cleanup]
  | finish ec bl =>
    cases aborted <;> cases acked <;> cases finished <;> cases c <;>
      cases hr : res.failed <;> cases he : ec.failed <;>
      simp_all [NotifyHandler.process, NotifyHandler.call,
        NotifyHandler.maybe_cleanup]

/-- The invariant of `process_keeps_decided` holds along every run. -/
theorem run_keeps_decided (sigs : List Signal) : ∀ s : Exec,
    (s.trace ≠ [] →
      (s.h.acked = true ∧ s.h.finished = true) ∨ s.h.res.failed = true) →
    (NotifyHandler.run s sigs).trace ≠ [] →
      ((NotifyHandler.run s sigs).h.acked = true ∧
        (NotifyHandler.run s sigs).h.finished = true) ∨
      (NotifyHandler.run s sigs).h.res.failed = true := by
  induction sigs with
  | nil => intro s hinv; simpa [NotifyHandler.run] using hinv
  | cons sig rest ih =>
    intro s hinv
    have := ih (NotifyHandler.process s sig) (process_keeps_decided s sig hinv)
    simpa [NotifyHandler.run] using this

/-- C1: for both processing orders of ack and finish, each carrying no
error, once both have been processed the trace holds exactly one dispatch
of the caller's completion, its result is success, `linger_cancel` was
called first, and no assertion failed. -/
theorem notify_success_dispatched_once (op : Nat) (e1 e2 : error_code)
    (b1 b2 : bufferlist)
    (h1 : e1.failed = false) (h2 : e2.failed = false) :
    (∃ rbl, (NotifyHandler.run (NotifyHandler.init op)
        [Signal.ack e1 b1, Signal.finish e2 b2]).trace
        = [Event.linger_cancel op, Event.dispatch error_code.success rbl]) ∧
    (∃ rbl, (NotifyHandler.run (NotifyHandler.init op)
        [Signal.finish e2 b2, Signal.ack e1 b1]).trace
        = [Event.linger_cancel op, Event.dispatch error_code.success rbl]) ∧
    (dispatched (NotifyHandler.run (NotifyHandler.init op)
        [Signal.ack e1 b1, Signal.finish e2 b2]).trace).length = 1 ∧
    (dispatched (NotifyHandler.run (NotifyHandler.init op)
        [Signal.finish e2 b2, Signal.ack e1 b1]).trace).length = 1 ∧
    error_code.success.failed = false ∧
    (NotifyHandler.run (NotifyHandler.init op)
        [Signal.ack e1 b1, Signal.finish e2 b2]).aborted = false ∧
    (NotifyHandler.run (NotifyHandler.init op)
        [Signal.finish e2 b2, Signal.ack e1 b1]).aborted = false := by
  have hs : error_code.success.failed = false := by decide
  simp [NotifyHandler.run, NotifyHandler.process, NotifyHandler.handle_ack,
    NotifyHandler.call, NotifyHandler.maybe_cleanup, NotifyHandler.init,
    h1, h2, hs, dispatched]

/-- Witness of C1 at op 7, ack with payload `[1]` and finish with payload
`[88]`, both with the default (success) error code. -/
theorem notify_success_dispatched_once_witness :
    (dispatched (NotifyHandler.run (NotifyHandler.init 7)
        [Signal.ack error_code.success [1],
         Signal.finish error_code.success [88]]).trace).length = 1 ∧
    (dispatched (NotifyHandler.run (NotifyHandler.init 7)
        [Signal.finish error_code.success [88],
         Signal.ack error_code.success [1]]).trace).length = 1 :=
  ⟨(notify_success_dispatched_once 7 error_code.success error_code.success
      [1] [88] (by decide) (by decide)).2.2.1,
   (notify_success_dispatched_once 7 error_code.success error_code.success
      [1] [88] (by decide) (by decide)).2.2.2.1⟩

/-- C2: at ack(success) followed by finish(success, payload `[88]`), and
in the other order, the handler dispatches the completion with an empty
reply buffer: the finish payload never reaches `rbl`. -/
theorem notify_reply_payload_dropped :
    dispatched (NotifyHandler.run (NotifyHandler.init 7)
      [Signal.ack error_code.success [],
       Signal.finish error_code.success [88]]).trace
      = [(error_code.success, [])] ∧
    dispatched (NotifyHandler.run (NotifyHandler.init 7)
      [Signal.finish error_code.success [88],
       Signal.ack error_code.success []]).trace
      = [(error_code.success, [])] := by
  decide

/-- C3: at finish(ETIMEDOUT) followed by a late ack(success), the late ack
is not ignored: `maybe_cleanup` calls `linger_cancel` a second time and its
`ceph_assert(c)` fails, because `c` was moved out by the first dispatch. -/
theorem notify_late_ack_fails_assert :
    NotifyHandler.run (NotifyHandler.init 7)
      [Signal.finish ⟨ETIMEDOUT, system_category⟩ [],
       Signal.ack error_code.success []]
      = { h := { op := 7, c := false, acked := true, finished := true,
                 res := ⟨ETIMEDOUT, system_category⟩, rbl := [] },
          trace := [Event.linger_cancel 7,
                    Event.dispatch ⟨ETIMEDOUT, system_category⟩ [],
                    Event.linger_cancel 7,
                    Event.assert_failed],
          aborted := true } := by
  decide

/-- C4: at ack(ETIMEDOUT) followed by finish(success), `linger_cancel` is
called twice on the handler's linger op, once by each continuation. -/
theorem notify_linger_cancel_twice :
    cancels 7 (NotifyHandler.run (NotifyHandler.init 7)
      [Signal.ack ⟨ETIMEDOUT, system_category⟩ [],
       Signal.finish error_code.success [88]]).trace = 2 := by
  decide

/-- C5: when ack with error `E1` is processed before finish with error
`E2`, the results delivered to the caller's completion are exactly `[E1]`;
when finish with `E2` is processed before ack with `E1`, they are exactly
`[E2]`. -/
theorem notify_first_error_wins (op : Nat) (E1 E2 : error_code)
    (b1 b2 : bufferlist)
    (h1 : E1.failed = true) (h2 : E2.failed = true) :
    (dispatched (NotifyHandler.run (NotifyHandler.init op)
        [Signal.ack E1 b1, Signal.finish E2 b2]).trace).map Prod.fst = [E1] ∧
    (dispatched (NotifyHandler.run (NotifyHandler.init op)
        [Signal.finish E2 b2, Signal.ack E1 b1]).trace).map Prod.fst = [E2] := by
  have hs : error_code.success.failed = false := by decide
  simp [NotifyHandler.run, NotifyHandler.process, NotifyHandler.handle_ack,
    NotifyHandler.call, NotifyHandler.maybe_cleanup, NotifyHandler.init,
    h1, h2, hs, dispatched]

/-- Witness of C5 with `E1 = EINVAL` and `E2 = ETIMEDOUT`. -/
theorem notify_first_error_wins_witness :
    (dispatched (NotifyHandler.run (NotifyHandler.init 7)
        [Signal.ack ⟨EINVAL, system_category⟩ [],
         Signal.finish ⟨ETIMEDOUT, system_category⟩ [88]]).trace).map Prod.fst
      = [⟨EINVAL, system_category⟩] ∧
    (dispatched (NotifyHandler.run (NotifyHandler.init 7)
        [Signal.finish ⟨ETIMEDOUT, system_category⟩ [88],
         Signal.ack ⟨EINVAL, system_category⟩ []]).trace).map Prod.fst
      = [⟨ETIMEDOUT, system_category⟩] :=
  notify_first_error_wins 7 ⟨EINVAL, system_category⟩
    ⟨ETIMEDOUT, system_category⟩ [] [88] (by decide) (by decide)

/-- C6: in every state reached from a new handler by processing any list
of signals, the trace holds an event (a `linger_cancel` call, a dispatch of
the completion) only if both `acked` and `finished` are true or
`res` holds an error; and after a single signal that carries no error the
trace is empty: nothing was dispatched and `linger_cancel` was not
called. -/
theorem notify_no_premature_completion (op : Nat) :
    (∀ sigs : List Signal,
      ∀ e ∈ (NotifyHandler.run (NotifyHandler.init op) sigs).trace,
      ((NotifyHandler.run (NotifyHandler.init op) sigs).h.acked = true ∧
        (NotifyHandler.run (NotifyHandler.init op) sigs).h.finished = true) ∨
      (NotifyHandler.run (NotifyHandler.init op) sigs).h.res.failed = true) ∧
    (∀ sig : Signal, sig.ec.failed = false →
      (NotifyHandler.run (NotifyHandler.init op) [sig]).trace = []) := by
  constructor
  · intro sigs e hmem
    apply run_keeps_decided sigs (NotifyHandler.init op)
    · intro h; exact absurd rfl h
    · intro h; rw [h] at hmem; exact absurd hmem (List.not_mem_nil e)
  · intro sig hsig
    have hs : error_code.success.failed = false := by decide
    cases sig with
    | ack ec bl =>
      simp only [Signal.ec] at hsig
      simp [NotifyHandler.run, NotifyHandler.process, NotifyHandler.handle_ack,
        NotifyHandler.maybe_cleanup, NotifyHandler.init, hsig, hs]
    | finish ec bl =>
      simp only [Signal.ec] at hsig
      simp [NotifyHandler.run, NotifyHandler.process, NotifyHandler.call,
        NotifyHandler.maybe_cleanup, NotifyHandler.init, hsig, hs]

/-- Witness of C6: after a lone finish(success) nothing has happened, and
after ack(success), finish(success) the dispatch in the trace comes with
both flags set. -/
theorem notify_no_premature_completion_witness :
    (NotifyHandler.run (NotifyHandler.init 7)
      [Signal.finish error_code.success [88]]).trace = [] ∧
    (((NotifyHandler.run (NotifyHandler.init 7)
        [Signal.ack error_code.success [],
         Signal.finish error_code.success [88]]).h.acked = true ∧
      (NotifyHandler.run (NotifyHandler.init 7)
        [Signal.ack error_code.success [],
         Signal.finish error_code.success [88]]).h.finished = true) ∨
     (NotifyHandler.run (NotifyHandler.init 7)
        [Signal.ack error_code.success [],
         Signal.finish error_code.success [88]]).h.res.failed = true) :=
  ⟨(notify_no_premature_completion 7).2
      (Signal.finish error_code.success [88]) (by decide),
   (notify_no_premature_completion 7).1
      [Signal.ack error_code.success [], Signal.finish error_code.success [88]]
      (Event.dispatch error_code.success []) (by decide)⟩

/-! ## Theorems: IOContext -/

/-- C7: for every context and every non-empty key `k`, after `key(k)`
(either overload, neither raising) `hash()` returns no value and `key()`
returns `k`; for every context and every `h ≥ 0`, after `hash(h)` (not
raising) `key()` returns no value and `hash()` returns `h`. -/
theorem iocontext_key_hash_exclusive (c : IOContextImpl) (k : String)
    (h : Int) (hk : k ≠ "") (hh : 0 ≤ h) :
    ((IOContext.set_key c k).thrown = none ∧
      IOContext.hash (IOContext.set_key c k).state = none ∧
      IOContext.key (IOContext.set_key c k).state = some k) ∧
    ((IOContext.set_key_move c k).thrown = none ∧
      IOContext.hash (IOContext.set_key_move c k).state = none ∧
      IOContext.key (IOContext.set_key_move c k).state = some k) ∧
    ((IOContext.set_hash c h).thrown = none ∧
      IOContext.key (IOContext.set_hash c h).state = none ∧
      IOContext.hash (IOContext.set_hash c h).state = some h) := by
  have hh2 : ¬ h < 0 := not_lt.mpr hh
  simp [IOContext.set_key, IOContext.set_key_move, IOContext.set_hash,
    IOContext.hash, IOContext.key, hk, hh2]

/-- Witness of C7: the spec's scenario, `key("abc")` on a new context and
then `hash(5)`. -/
theorem iocontext_key_hash_exclusive_witness :
    IOContext.hash (IOContext.set_key IOContext.init "abc").state = none ∧
    IOContext.key
      (IOContext.set_hash (IOContext.set_key IOContext.init "abc").state 5).state
      = none :=
  ⟨(iocontext_key_hash_exclusive IOContext.init "abc" 5
      (by decide) (by decide)).1.2.1,
   (iocontext_key_hash_exclusive (IOContext.set_key IOContext.init "abc").state
      "abc" 5 (by decide) (by decide)).2.2.2.1⟩

/-- A context stores a key only together with a negative hash. -/
theorem reachable_key_or_hash_absent (is_valid : SnapContext → Bool)
    (c : IOContextImpl) (hr : IOContext.Reachable is_valid c) :
    c.oloc.key = "" ∨ c.oloc.hash < 0 := by
  induction hr with
  | fresh => left; rfl
  | pool p _ ih => simpa [IOContext.set_pool] using ih
  | ns s _ ih => simpa [IOContext.set_ns] using ih
  | key k _ ih =>
    unfold IOContext.set_key
    split
    · exact ih
    · right; simp
  | key_move k _ ih =>
    unfold IOContext.set_key_move
    split
    · exact ih
    · right; simp
  | clear_key _ _ => left; rfl
  | hash h _ ih =>
    unfold IOContext.set_hash
    split
    · exact ih
    · left; rfl
  | clear_hash _ _ => left; rfl
  | read_snap o _ ih => simpa [IOContext.set_read_snap] using ih
  | write_snap_context o _ ih =>
    cases o with
    | none => simpa [IOContext.set_write_snap_context] using ih
    | some p =>
      by_cases hv : is_valid ⟨p.1, p.2⟩ = true
      · simpa [IOContext.set_write_snap_context, hv] using ih
      · simpa [IOContext.set_write_snap_context, hv] using ih
  | assign _ _ _ ihb => simpa [IOContext.assign] using ihb

/-- C8: in every context reachable from a freshly constructed one by
pool, ns, key, clear_key, hash, clear_hash, read_snap and
write_snap_context calls (raising or not) and copy assignments, whatever
the validity test of snap contexts is, `key()` and `hash()` are not both
present. -/
theorem iocontext_key_hash_never_both (is_valid : SnapContext → Bool)
    (c : IOContextImpl) (hr : IOContext.Reachable is_valid c) :
    ¬ ((IOContext.key c).isSome = true ∧ (IOContext.hash c).isSome = true) := by
  rcases reachable_key_or_hash_absent is_valid c hr with h | h
  · simp [IOContext.key, h]
  · simp [IOContext.hash, h]

/-- Witness of C8: the context built by `key("abc")`, `hash(5)`, a raising
`key("")` and a raising `write_snap_context((3, {7}))`. -/
theorem iocontext_key_hash_never_both_witness :
    ¬ ((IOContext.key (IOContext.set_write_snap_context SnapContext.is_valid
          (IOContext.set_key
            (IOContext.set_hash
              (IOContext.set_key IOContext.init "abc").state 5).state
            "").state (some (3, [7]))).state).isSome = true ∧
       (IOContext.hash (IOContext.set_write_snap_context SnapContext.is_valid
          (IOContext.set_key
            (IOContext.set_hash
              (IOContext.set_key IOContext.init "abc").state 5).state
            "").state (some (3, [7]))).state).isSome = true) :=
  iocontext_key_hash_never_both SnapContext.is_valid _
    (IOContext.Reachable.write_snap_context (some (3, [7]))
      (IOContext.Reachable.key ""
        (IOContext.Reachable.hash 5
          (IOContext.Reachable.key "abc" IOContext.Reachable.fresh))))

/-- C9: for every context, `key("")`, in either overload, raises a
`system_error` carrying `EINVAL` in the system category and leaves the
context, hence each of its fields, unchanged. -/
theorem iocontext_empty_key_rejected (c : IOContextImpl) :
    (IOContext.set_key c "").thrown = some empty_key_error ∧
    (IOContext.set_key c "").state = c ∧
    (IOContext.set_key_move c "").thrown = some empty_key_error ∧
    (IOContext.set_key_move c "").state = c ∧
    empty_key_error.code = ⟨EINVAL, system_category⟩ := by
  simp [IOContext.set_key, IOContext.set_key_move, empty_key_error]

/-- C10: for every context, sequence number `seq` and snapshot list `snaps`
in which some listed id is greater than `seq`,
`write_snap_context(Some(seq, snaps))` raises a `system_error` carrying
`EINVAL` and leaves the context unchanged, the stored write snap-context
included. -/
theorem iocontext_invalid_snapc_rejected (c : IOContextImpl) (seq : Nat)
    (snaps : List Nat) (hbad : ∃ s ∈ snaps, seq < s) :
    (IOContext.set_write_snap_context SnapContext.is_valid c
        (some (seq, snaps))).thrown = some invalid_snapc_error ∧
    (IOContext.set_write_snap_context SnapContext.is_valid c
        (some (seq, snaps))).state = c ∧
    invalid_snapc_error.code = ⟨EINVAL, system_category⟩ := by
  have hv : SnapContext.is_valid ⟨seq, snaps⟩ = false := by
    simp only [SnapContext.is_valid, List.all_eq_false]
    obtain ⟨s, hs, hlt⟩ := hbad
    exact ⟨s, hs, by simpa using hlt⟩
  simp [IOContext.set_write_snap_context, hv, invalid_snapc_error]

/-- Witness of C10: the spec's two scenarios, `seq = 5, snaps = {7,5,3}` on
a context holding the snap context `(9, {4})`, and `seq = 3, snaps = {7}`
on a new context. -/
theorem iocontext_invalid_snapc_rejected_witness :
    (IOContext.set_write_snap_context SnapContext.is_valid
        { IOContext.init with snapc := ⟨9, [4]⟩ }
        (some (5, [7, 5, 3]))).state.snapc = ⟨9, [4]⟩ ∧
    (IOContext.set_write_snap_context SnapContext.is_valid IOContext.init
        (some (3, [7]))).thrown = some invalid_snapc_error :=
  ⟨by
    rw [(iocontext_invalid_snapc_rejected
      { IOContext.init with snapc := ⟨9, [4]⟩ } 5 [7, 5, 3]
      ⟨7, by decide, by decide⟩).2.1],
   (iocontext_invalid_snapc_rejected IOContext.init 3 [7]
      ⟨7, by decide, by decide⟩).1⟩

/-- C11: for every context and every `h < 0`, `hash(h)` raises a
`system_error` carrying `EINVAL` in the system category and leaves the
context unchanged, so `key()` and `hash()` report what they did before. -/
theorem iocontext_negative_hash_rejected (c : IOContextImpl) (h : Int)
    (hneg : h < 0) :
    (IOContext.set_hash c h).thrown = some negative_hash_error ∧
    (IOContext.set_hash c h).state = c ∧
    IOContext.key (IOContext.set_hash c h).state = IOContext.key c ∧
    IOContext.hash (IOContext.set_hash c h).state = IOContext.hash c ∧
    negative_hash_error.code = ⟨EINVAL, system_category⟩ := by
  simp [IOContext.set_hash, hneg, negative_hash_error]

/-- Witness of C11: `hash(-3)` on a context holding the key `"abc"`, and
on a context holding the hash 5. -/
theorem iocontext_negative_hash_rejected_witness :
    IOContext.key
      (IOContext.set_hash (IOContext.set_key IOContext.init "abc").state
        (-3)).state = some "abc" ∧
    IOContext.hash
      (IOContext.set_hash (IOContext.set_hash IOContext.init 5).state
        (-3)).state = some 5 := by
  refine ⟨?_, ?_⟩
  · rw [(iocontext_negative_hash_rejected
      (IOContext.set_key IOContext.init "abc").state (-3) (by decide)).2.2.1]
    decide
  · rw [(iocontext_negative_hash_rejected
      (IOContext.set_hash IOContext.init 5).state (-3) (by decide)).2.2.2.1]
    decide

/-- C12, counterexample: the snapshot id 18446744073709551614 is an
unsigned 64-bit value, yet after `read_snap(Some 18446744073709551614)` the
accessor `read_snap()` returns no value. -/
theorem iocontext_read_snap_nosnap_lost :
    18446744073709551614 < 2 ^ 64 ∧
    IOContext.read_snap
      (IOContext.set_read_snap IOContext.init (some 18446744073709551614))
      = none ∧
    IOContext.read_snap
      (IOContext.set_read_snap IOContext.init (some 18446744073709551614))
      ≠ some 18446744073709551614 := by
  refine ⟨by norm_num, ?_, ?_⟩ <;>
    simp [IOContext.read_snap, IOContext.set_read_snap, CEPH_NOSNAP]

/-- C12, amended: for every context and every snapshot id `s` other than
`CEPH_NOSNAP`, after `read_snap(Some s)` the accessor `read_snap()` returns
`Some s`. -/
theorem iocontext_read_snap_roundtrip (c : IOContextImpl) (s : Nat)
    (hs : s ≠ CEPH_NOSNAP) :
    IOContext.read_snap (IOContext.set_read_snap c (some s)) = some s := by
  simp [IOContext.read_snap, IOContext.set_read_snap, hs]

/-- Witness of C12 amended, at the snapshot id 7 and at the largest
unsigned 64-bit value. -/
theorem iocontext_read_snap_roundtrip_witness :
    IOContext.read_snap (IOContext.set_read_snap IOContext.init (some 7))
      = some 7 ∧
    IOContext.read_snap
      (IOContext.set_read_snap IOContext.init (some 18446744073709551615))
      = some 18446744073709551615 :=
  ⟨iocontext_read_snap_roundtrip IOContext.init 7
      (by simp [CEPH_NOSNAP]),
   iocontext_read_snap_roundtrip IOContext.init 18446744073709551615
      (by simp [CEPH_NOSNAP])⟩

/-! ## Theorems: Cursor -/

/-- The sample positions satisfy `max_is_max`. -/
theorem hobject_sample_max_is_max : hobject_sample.max_is_max := by
  simp [hobject_ops.max_is_max, hobject_sample]

/-- C14: when `is_max` holds of `get_max()`, `Cursor::end().to_str()` is
exactly `"MAX"`; and for every cursor `c`, `c.to_str()` is `"MAX"` when `c`
is the maximal sentinel and the `to_str()` of its position otherwise. -/
theorem cursor_to_str_sentinel {H : Type} (ops : hobject_ops H)
    (hmax : ops.max_is_max) :
    Cursor.to_str ops (Cursor.end_ ops) = "MAX" ∧
    ∀ c : Cursor H,
      (ops.is_max c.impl = true → Cursor.to_str ops c = "MAX") ∧
      (ops.is_max c.impl = false →
        Cursor.to_str ops c = ops.to_str c.impl) := by
  have hm : ops.is_max ops.get_max = true := hmax
  refine ⟨?_, ?_⟩
  · simp [Cursor.to_str, Cursor.end_, Cursor.ctor_end_magic, hm]
  · intro c
    constructor <;> intro hc <;> simp [Cursor.to_str, hc]

/-- Witness of C14 on the sample positions: `end()` prints as `"MAX"`. -/
theorem cursor_to_str_sentinel_witness :
    Cursor.to_str hobject_sample (Cursor.end_ hobject_sample) = "MAX" :=
  (cursor_to_str_sentinel hobject_sample hobject_sample_max_is_max).1

/-- The modelled order of positions is a strict total order: irreflexive,
transitive, and any two different positions are ordered one way. -/
theorem hobject_t_lt_strict_total (a b c : hobject_t) :
    hobject_t.lt a a = false ∧
    (hobject_t.lt a b = true → hobject_t.lt b c = true →
      hobject_t.lt a c = true) ∧
    (a ≠ b → hobject_t.lt a b = true ∨ hobject_t.lt b a = true) := by
  refine ⟨?_, ?_, ?_⟩
  · cases a <;> simp [hobject_t.lt]
  · cases a <;> cases b <;> cases c <;> simp [hobject_t.lt]
    omega
  · cases a <;> cases b <;> simp [hobject_t.lt]

/-- C15: in the order of positions modelled from the spec, whatever the
string form and the parser are, `c < Cursor::end()` holds for every cursor
`c` other than the maximal sentinel, and `Cursor::begin() <= c` holds for
every cursor `c`; the sentinel is not below itself. -/
theorem cursor_sentinel_ordering (to_str : hobject_t → String)
    (parse : hobject_t → String → Bool × hobject_t) (c : Cursor hobject_t) :
    (c ≠ Cursor.end_ (hobject_t.ops to_str parse) →
      Cursor.lt (hobject_t.ops to_str parse) c
        (Cursor.end_ (hobject_t.ops to_str parse)) = true) ∧
    Cursor.le (hobject_t.ops to_str parse)
      (Cursor.begin (hobject_t.ops to_str parse)) c = true ∧
    Cursor.lt (hobject_t.ops to_str parse)
      (Cursor.end_ (hobject_t.ops to_str parse))
      (Cursor.end_ (hobject_t.ops to_str parse)) = false := by
  obtain ⟨h⟩ := c
  cases h with
  | max =>
    simp [Cursor.lt, Cursor.le, Cursor.end_, Cursor.ctor_end_magic,
      Cursor.begin, Cursor.ctor, hobject_t.ops, hobject_t.get_max,
      hobject_t.ctor, hobject_t.lt, hobject_t.le]
  | pos n =>
    simp [Cursor.lt, Cursor.le, Cursor.end_, Cursor.ctor_end_magic,
      Cursor.begin, Cursor.ctor, hobject_t.ops, hobject_t.get_max,
      hobject_t.ctor, hobject_t.lt, hobject_t.le, hobject_t.eq]
    omega

/-- Witness of C15 at the cursor of rank 4, with a constant string form and
a parser that rejects everything. -/
theorem cursor_sentinel_ordering_witness :
    Cursor.lt (hobject_t.ops (fun _ => "") (fun h _ => (false, h)))
      ⟨hobject_t.pos 4⟩
      (Cursor.end_ (hobject_t.ops (fun _ => "") (fun h _ => (false, h))))
      = true ∧
    Cursor.le (hobject_t.ops (fun _ => "") (fun h _ => (false, h)))
      (Cursor.begin (hobject_t.ops (fun _ => "") (fun h _ => (false, h))))
      ⟨hobject_t.pos 4⟩ = true :=
  ⟨(cursor_sentinel_ordering (fun _ => "") (fun h _ => (false, h))
      ⟨hobject_t.pos 4⟩).1 (by decide),
   (cursor_sentinel_ordering (fun _ => "") (fun h _ => (false, h))
      ⟨hobject_t.pos 4⟩).2.1⟩

/-- C16: for every string `s`, `Cursor::from_str(s)` returns no value
exactly when the position parser, run on a default-constructed position,
rejects `s`; when the parser accepts `s` it returns the cursor holding the
position the parser left.  It is a total function: it raises nothing. -/
theorem cursor_from_str_none_iff_rejected {H : Type} (ops : hobject_ops H)
    (s : String) :
    (Cursor.from_str ops s = none ↔ (ops.parse ops.ctor s).1 = false) ∧
    ((ops.parse ops.ctor s).1 = true →
      Cursor.from_str ops s = some ⟨(ops.parse ops.ctor s).2⟩) := by
  cases hp : (ops.parse ops.ctor s).1 <;>
    simp [Cursor.from_str, Cursor.ctor, hp]

/-- Witness of C16 on the sample positions: `"xx"` is accepted and `"xy"`
is rejected. -/
theorem cursor_from_str_none_iff_rejected_witness :
    Cursor.from_str hobject_sample "xx" = some ⟨some 2⟩ ∧
    Cursor.from_str hobject_sample "xy" = none :=
  ⟨(cursor_from_str_none_iff_rejected hobject_sample "xx").2 (by decide),
   (cursor_from_str_none_iff_rejected hobject_sample "xy").1.mpr (by decide)⟩

/-! ## Theorems: watch, unwatch, WriteOp, Object -/

/-- C17: for both `unwatch` overloads, what has happened before the
mutate submission completes is the submission alone, with no
`linger_cancel`; once it completes with any error code `ec`, everything
that has happened is the submission, then one `linger_cancel` on the
registration the cookie identifies, then the dispatch of `ec` to the
caller's completion. -/
theorem unwatch_cancels_on_completion (base_oid : Nat → object_t)
    (now cookie : Nat) (ioc : IOContextImpl) (pool : Int)
    (ns key : Option String) (ec : error_code) :
    ((unwatch base_oid now cookie ioc).timeline none
        = (unwatch base_oid now cookie ioc).body ∧
      (∀ l, Action.linger_cancel l ∉
        (unwatch base_oid now cookie ioc).timeline none) ∧
      (∃ m, (unwatch base_oid now cookie ioc).timeline (some ec)
        = [Action.mutate m, Action.linger_cancel cookie,
           Action.dispatch_simple ec]) ∧
      linger_cancels cookie
        ((unwatch base_oid now cookie ioc).timeline (some ec)) = 1) ∧
    ((unwatch_pool base_oid now cookie pool ns key).timeline none
        = (unwatch_pool base_oid now cookie pool ns key).body ∧
      (∀ l, Action.linger_cancel l ∉
        (unwatch_pool base_oid now cookie pool ns key).timeline none) ∧
      (∃ m, (unwatch_pool base_oid now cookie pool ns key).timeline (some ec)
        = [Action.mutate m, Action.linger_cancel cookie,
           Action.dispatch_simple ec]) ∧
      linger_cancels cookie
        ((unwatch_pool base_oid now cookie pool ns key).timeline (some ec))
        = 1) := by
  simp [unwatch, unwatch_pool, Async.timeline, linger_cancels]

/-- C18: for both `watch` overloads and every submission outcome `e`, the
completion handler dispatches `(e, cookie)` to the caller's completion,
where `cookie` is the cookie of the registration `linger_register`
returned, and the submitted operation is the one watch-start sub-operation
carrying that cookie; its timeout is the given one, and 0 when none is
given. -/
theorem watch_completion_gets_cookie (get_cookie : Nat → Nat)
    (now linger_op : Nat) (o : Object) (ioc : IOContextImpl) (pool : Int)
    (ns key : Option String) (timeout : Option Int) (e : error_code)
    (bl : bufferlist) :
    ((watch get_cookie now linger_op o ioc timeout).on_complete (e, bl)
        = [Action.dispatch_watch e (get_cookie linger_op)] ∧
      (watch get_cookie now linger_op o ioc timeout).body
        = [Action.linger_register o.impl ioc.oloc 0,
           Action.set_handle linger_op,
           Action.linger_watch
             { linger_op := linger_op,
               op := [OSDOp.watch (get_cookie linger_op) WatchKind.WATCH
                        (some (timeout.getD 0))],
               snapc := ioc.snapc, mtime := now, bl := [] }] ∧
      (watch get_cookie now linger_op o ioc none).body
        = [Action.linger_register o.impl ioc.oloc 0,
           Action.set_handle linger_op,
           Action.linger_watch
             { linger_op := linger_op,
               op := [OSDOp.watch (get_cookie linger_op) WatchKind.WATCH
                        (some 0)],
               snapc := ioc.snapc, mtime := now, bl := [] }]) ∧
    ((watch_pool get_cookie now linger_op o pool timeout ns key).on_complete
          (e, bl)
        = [Action.dispatch_watch e (get_cookie linger_op)] ∧
      (watch_pool get_cookie now linger_op o pool timeout ns key).body
        = [Action.linger_register o.impl (pool_oloc pool ns key) 0,
           Action.set_handle linger_op,
           Action.linger_watch
             { linger_op := linger_op,
               op := [OSDOp.watch (get_cookie linger_op) WatchKind.WATCH
                        (some (timeout.getD 0))],
               snapc := SnapContext.default, mtime := now, bl := [] }] ∧
      (watch_pool get_cookie now linger_op o pool none ns key).body
        = [Action.linger_register o.impl (pool_oloc pool ns key) 0,
           Action.set_handle linger_op,
           Action.linger_watch
             { linger_op := linger_op,
               op := [OSDOp.watch (get_cookie linger_op) WatchKind.WATCH
                        (some 0)],
               snapc := SnapContext.default, mtime := now, bl := [] }]) := by
  simp [watch, watch_pool]

/-- The `mtime` field after a sequence of member calls is the value of the
last `set_mtime` among them, and the former field when there is none. -/
theorem foldl_apply_mtime (calls : List WriteOpCall) : ∀ o : OpImpl,
    (calls.foldl WriteOp.apply o).mtime
      = match last_set_mtime calls with
        | some t => some t
        | none => o.mtime := by
  induction calls with
  | nil => intro o; simp [last_set_mtime]
  | cons c rest ih =>
    intro o
    rw [List.foldl_cons, ih (WriteOp.apply o c)]
    cases hl : last_set_mtime rest with
    | some t => simp [last_set_mtime, hl]
    | none =>
      cases c <;>
        simp [last_set_mtime, hl, WriteOp.apply, WriteOp.set_mtime,
          WriteOp.create, WriteOp.write, WriteOp.write_full, WriteOp.remove,
          WriteOp.truncate, WriteOp.zero]

/-- The `mtime` field of a `WriteOp` built by a sequence of member calls
is the value of the last `set_mtime` among them, if any. -/
theorem build_mtime (calls : List WriteOpCall) :
    (WriteOp.build calls).mtime = last_set_mtime calls := by
  have h := foldl_apply_mtime calls Op.ctor
  unfold WriteOp.build
  rw [h]
  cases last_set_mtime calls <;> simp [Op.ctor]

/-- C19: for both `WriteOp` `execute` overloads and every sequence of
member calls that built the op, the modification time passed to `mutate`
is the value given to the last `set_mtime` call, and the clock reading
`now` when `set_mtime` was never called. -/
theorem writeop_mtime_passed (calls : List WriteOpCall) (now : Nat)
    (o : Object) (ioc : IOContextImpl) (pool : Int)
    (ns key : Option String) :
    (execute_write now o ioc (WriteOp.build calls)).mtime
      = (last_set_mtime calls).getD now ∧
    (execute_write_pool now o pool (WriteOp.build calls) ns key).mtime
      = (last_set_mtime calls).getD now := by
  have h := build_mtime calls
  unfold execute_write execute_write_pool
  cases hl : last_set_mtime calls with
  | some t => rw [hl] at h; simp [h]
  | none => rw [hl] at h; simp [h]

/-- C20: for all strings `a` and `b`, the string view of `Object(a)` is
`a`; `Object(a) == Object(b)` holds iff `a = b`; `Object(a) < Object(b)`
holds iff `a < b` as names; and exactly one of `<`, `==`, `>` holds of the
pair. -/
theorem object_name_order (a b : String) :
    Object.string_view (Object.ctor a) = a ∧
    (Object.eq (Object.ctor a) (Object.ctor b) = true ↔ a = b) ∧
    (Object.lt (Object.ctor a) (Object.ctor b) = true ↔ a < b) ∧
    ((Object.lt (Object.ctor a) (Object.ctor b) = true ∧
        Object.eq (Object.ctor a) (Object.ctor b) = false ∧
        Object.gt (Object.ctor a) (Object.ctor b) = false) ∨
      (Object.lt (Object.ctor a) (Object.ctor b) = false ∧
        Object.eq (Object.ctor a) (Object.ctor b) = true ∧
        Object.gt (Object.ctor a) (Object.ctor b) = false) ∨
      (Object.lt (Object.ctor a) (Object.ctor b) = false ∧
        Object.eq (Object.ctor a) (Object.ctor b) = false ∧
        Object.gt (Object.ctor a) (Object.ctor b) = true)) := by
  refine ⟨rfl, ?_, ?_, ?_⟩
  · simp [Object.eq, Object.ctor, object_t.eq, object_t.ctor]
  · simp [Object.lt, Object.ctor, object_t.lt, object_t.ctor,
      String.lt_iff_toList_lt]
  · simp only [Object.lt, Object.eq, Object.gt, Object.ctor, object_t.lt,
      object_t.eq, object_t.gt, object_t.ctor, decide_eq_true_eq,
      decide_eq_false_iff_not, ← String.lt_iff_toList_lt]
    rcases lt_trichotomy a b with h | h | h
    · exact Or.inl ⟨h, ne_of_lt h, not_lt_of_gt h⟩
    · subst h
      exact Or.inr (Or.inl ⟨lt_irrefl _, rfl, lt_irrefl _⟩)
    · exact Or.inr (Or.inr ⟨not_lt_of_gt h, (ne_of_lt h).symm, h⟩)

/-! ## Theorems: NotifyHandler, continued -/

/-- C22: for every error `E`, when the first processed signal, ack or
finish, carries `E`, that same step calls `linger_cancel` and dispatches the
caller's completion with result `E` and an empty reply buffer, without the
other signal. -/
theorem notify_error_short_circuit (op : Nat) (E : error_code)
    (bl : bufferlist) (hE : E.failed = true) :
    (NotifyHandler.run (NotifyHandler.init op) [Signal.ack E bl]).trace
      = [Event.linger_cancel op, Event.dispatch E []] ∧
    (NotifyHandler.run (NotifyHandler.init op) [Signal.finish E bl]).trace
      = [Event.linger_cancel op, Event.dispatch E []] := by
  have hs : error_code.success.failed = false := by decide
  simp [NotifyHandler.run, NotifyHandler.process, NotifyHandler.handle_ack,
    NotifyHandler.call, NotifyHandler.maybe_cleanup, NotifyHandler.init,
    hE, hs]

/-- Witness of C22: finish(ETIMEDOUT) arriving before any ack. -/
theorem notify_error_short_circuit_witness :
    (NotifyHandler.run (NotifyHandler.init 7)
      [Signal.finish ⟨ETIMEDOUT, system_category⟩ [88]]).trace
      = [Event.linger_cancel 7,
         Event.dispatch ⟨ETIMEDOUT, system_category⟩ []] :=
  (notify_error_short_circuit 7 ⟨ETIMEDOUT, system_category⟩ [88]
    (by decide)).2

/-- C23: for every handler state and every error code `ec`,
`maybe_cleanup(ec)` leaves `res` unchanged when `res` already holds an
error, leaves it unchanged when `ec` is success, and sets it to `ec` when
`res` is success and `ec` is an error; so `res` changes only in that last
case. -/
theorem maybe_cleanup_res_monotone (s : Exec) (ec : error_code) :
    (s.h.res.failed = true →
      (NotifyHandler.maybe_cleanup s ec).h.res = s.h.res) ∧
    (ec.failed = false →
      (NotifyHandler.maybe_cleanup s ec).h.res = s.h.res) ∧
    (s.h.res.failed = false → ec.failed = true →
      (NotifyHandler.maybe_cleanup s ec).h.res = ec) ∧
    ((NotifyHandler.maybe_cleanup s ec).h.res ≠ s.h.res →
      s.h.res.failed = false ∧ ec.failed = true) := by
  obtain ⟨⟨op, c, acked, finished, res, rbl⟩, trace, aborted⟩ := s
  cases hr : res.failed <;> cases he : ec.failed <;> cases acked <;>
    cases finished <;> cases c <;>
    simp [NotifyHandler.maybe_cleanup, hr, he]

/-- Witness of C23: an error is recorded over success, and a later error
does not replace it. -/
theorem maybe_cleanup_res_monotone_witness :
    (NotifyHandler.maybe_cleanup (NotifyHandler.init 7)
      ⟨EINVAL, system_category⟩).h.res = ⟨EINVAL, system_category⟩ ∧
    (NotifyHandler.maybe_cleanup
      (NotifyHandler.maybe_cleanup (NotifyHandler.init 7)
        ⟨EINVAL, system_category⟩)
      ⟨ETIMEDOUT, system_category⟩).h.res
      = (NotifyHandler.maybe_cleanup (NotifyHandler.init 7)
          ⟨EINVAL, system_category⟩).h.res :=
  ⟨(maybe_cleanup_res_monotone (NotifyHandler.init 7)
      ⟨EINVAL, system_category⟩).2.2.1 (by decide) (by decide),
   (maybe_cleanup_res_monotone
      (NotifyHandler.maybe_cleanup (NotifyHandler.init 7)
        ⟨EINVAL, system_category⟩)
      ⟨ETIMEDOUT, system_category⟩).1 (by decide)⟩

/-! ## Theorems: IOContext, continued -/

/-- C24: for every context, after `clear_key()` and after `clear_hash()`
both `key()` and `hash()` return no value, the pool, namespace, read snap
and write snap-context are unchanged, and the two calls leave the same
context. -/
theorem iocontext_clear_key_clear_hash_same (c : IOContextImpl) :
    (IOContext.key (IOContext.clear_key c) = none ∧
      IOContext.hash (IOContext.clear_key c) = none ∧
      IOContext.pool (IOContext.clear_key c) = IOContext.pool c ∧
      IOContext.ns (IOContext.clear_key c) = IOContext.ns c ∧
      (IOContext.clear_key c).snap_seq = c.snap_seq ∧
      (IOContext.clear_key c).snapc = c.snapc) ∧
    (IOContext.key (IOContext.clear_hash c) = none ∧
      IOContext.hash (IOContext.clear_hash c) = none ∧
      IOContext.pool (IOContext.clear_hash c) = IOContext.pool c ∧
      IOContext.ns (IOContext.clear_hash c) = IOContext.ns c ∧
      (IOContext.clear_hash c).snap_seq = c.snap_seq ∧
      (IOContext.clear_hash c).snapc = c.snapc) ∧
    IOContext.clear_key c = IOContext.clear_hash c := by
  simp [IOContext.clear_key, IOContext.clear_hash, IOContext.key,
    IOContext.hash, IOContext.pool, IOContext.ns]

/-- C25: for every validity test, context and `(seq, snaps)` with
`seq ≠ 0` that `write_snap_context(Some(seq, snaps))` accepts without
raising, `write_snap_context()` afterwards returns `Some(seq, snaps)`, the
ids in the same order; and after `write_snap_context(None)` it returns no
value. -/
theorem iocontext_write_snapc_roundtrip (is_valid : SnapContext → Bool)
    (c : IOContextImpl) (seq : Nat) (snaps : List Nat) (hseq : seq ≠ 0)
    (hacc : (IOContext.set_write_snap_context is_valid c
      (some (seq, snaps))).thrown = none) :
    IOContext.write_snap_context
      (IOContext.set_write_snap_context is_valid c (some (seq, snaps))).state
      = some (seq, snaps) ∧
    IOContext.write_snap_context
      (IOContext.set_write_snap_context is_valid c none).state = none := by
  by_cases hv : is_valid ⟨seq, snaps⟩ = true
  · simp [IOContext.set_write_snap_context, IOContext.write_snap_context,
      SnapContext.empty, SnapContext.clear, hv, hseq]
  · simp [IOContext.set_write_snap_context, hv] at hacc

/-- Witness of C25: `(5, {3, 2})` on a new context. -/
theorem iocontext_write_snapc_roundtrip_witness :
    IOContext.write_snap_context
      (IOContext.set_write_snap_context SnapContext.is_valid IOContext.init
        (some (5, [3, 2]))).state = some (5, [3, 2]) :=
  (iocontext_write_snapc_roundtrip SnapContext.is_valid IOContext.init 5
    [3, 2] (by decide) (by decide)).1

/-! ## Theorems: stat_fs, Builder::build, lookup_pool -/

/-- C26: for every pool id `p`, `stat_fs(Some p, c)` reads the value of the
empty local optional `pool` and never reaches `get_fs_stats` with `Some p`;
`stat_fs(None, c)` calls `get_fs_stats` with no pool. -/
theorem stat_fs_reads_empty_optional :
    stat_fs (some 5) = StatFs.empty_optional_read ∧
    (∀ p : Int, stat_fs (some p) = StatFs.empty_optional_read) ∧
    stat_fs none = StatFs.get_fs_stats none := by
  refine ⟨rfl, fun _ => rfl, rfl⟩

/-- C27: when `parse_config_files` fails (here with `-ENOENT`, no config
values, `no_mon_conf` set, and `new detail::RADOS` not throwing), `build`
dispatches the error and goes on: `make_with_cct` receives the moved-from
completion and its callback calls `dispatch` through the null pointer. -/
theorem build_continues_after_error (to_error_code : Int → error_code) :
    Builder.build to_error_code
      { parse_config_files := -ENOENT, set_val := [], no_mon_conf := true,
        get_monmap_and_config := 0, rados_ctor_throws := none }
      = { c := false,
          trace := [BuildEvent.dispatch (to_error_code (-ENOENT)) false,
                    BuildEvent.null_completion_used],
          crashed := true } := by
  simp [Builder.build, make_with_cct, BuildState.dispatch, ENOENT]

/-- C28: a run of `lookup_pool` dispatches the caller's completion exactly
once.  When the name resolves on the current map (`0 ≤ ret_now`) it
receives `(no error, ret_now)` and the latest map is not asked for;
otherwise the latest map is asked for and, whatever error code `ec` the
refresh reports, the completion receives `(no error, ret_latest)` when the
name resolves then and `(pool_dne, 0)` when it does not. -/
theorem lookup_pool_outcome (pool_dne : error_code) (ret_now : Int)
    (ec : error_code) (ret_latest : Int) :
    (lookup_dispatched (lookup_pool pool_dne ret_now ec ret_latest)).length
      = 1 ∧
    (0 ≤ ret_now →
      lookup_pool pool_dne ret_now ec ret_latest
        = [LookupAction.dispatch error_code.success ret_now]) ∧
    (ret_now < 0 → 0 ≤ ret_latest →
      lookup_pool pool_dne ret_now ec ret_latest
        = [LookupAction.wait_for_latest_osdmap,
           LookupAction.dispatch error_code.success ret_latest]) ∧
    (ret_now < 0 → ret_latest < 0 →
      lookup_pool pool_dne ret_now ec ret_latest
        = [LookupAction.wait_for_latest_osdmap,
           LookupAction.dispatch pool_dne 0]) := by
  by_cases h1 : ret_now < 0
  · have h1n : ¬ 0 ≤ ret_now := not_le.mpr h1
    by_cases h2 : ret_latest < 0
    · have h2n : ¬ 0 ≤ ret_latest := not_le.mpr h2
      simp [lookup_pool, lookup_pool_body, lookup_pool_latest,
        lookup_dispatched, h1, h2, h1n, h2n]
    · have h2p : 0 ≤ ret_latest := not_lt.mp h2
      simp [lookup_pool, lookup_pool_body, lookup_pool_latest,
        lookup_dispatched, h1, h2, h1n, h2p]
  · have h1p : 0 ≤ ret_now := not_lt.mp h1
    simp [lookup_pool, lookup_pool_body, lookup_dispatched, h1, h1p]

/-- Witness of C28: a name resolving to pool 3 at once; a name unknown
(`-ENOENT`) at first and resolving to pool 4 on the latest map, while the
refresh reports `ETIMEDOUT`; and a name unknown on both maps. -/
theorem lookup_pool_outcome_witness :
    lookup_pool ⟨1, 3⟩ 3 error_code.success (-ENOENT)
      = [LookupAction.dispatch error_code.success 3] ∧
    lookup_pool ⟨1, 3⟩ (-ENOENT) ⟨ETIMEDOUT, system_category⟩ 4
      = [LookupAction.wait_for_latest_osdmap,
         LookupAction.dispatch error_code.success 4] ∧
    lookup_pool ⟨1, 3⟩ (-ENOENT) error_code.success (-ENOENT)
      = [LookupAction.wait_for_latest_osdmap,
         LookupAction.dispatch ⟨1, 3⟩ 0] :=
  ⟨(lookup_pool_outcome ⟨1, 3⟩ 3 error_code.success (-ENOENT)).2.1
      (by decide),
   (lookup_pool_outcome ⟨1, 3⟩ (-ENOENT) ⟨ETIMEDOUT, system_category⟩
      4).2.2.1 (by decide) (by decide),
   (lookup_pool_outcome ⟨1, 3⟩ (-ENOENT) error_code.success
      (-ENOENT)).2.2.2 (by decide) (by decide)⟩

/-! ## Theorems: osd error category, round_diff_interval -/

/-- C30: with `object_size = 4`, the interval set `{[3, 5)}` is rounded to
`{[0, 4)}`, which leaves out offset 4 although the aligned block `[4, 8)`
intersects the set; and `{[0, 4)}` is rounded to `{[0, 8)}`, which holds
offset 5 although the block `[4, 8)` does not intersect the set.  With
`object_size = 0` the set is returned unchanged. -/
theorem round_diff_interval_not_block_cover :
    interval_set.contains [(3, 2)] 4 = true ∧
    round_diff_interval [(3, 2)] 4 = [(0, 4)] ∧
    interval_set.contains (round_diff_interval [(3, 2)] 4) 4 = false ∧
    round_diff_interval [(0, 4)] 4 = [(0, 8)] ∧
    interval_set.contains (round_diff_interval [(0, 4)] 4) 5 = true ∧
    (∀ x, 4 ≤ x → x < 8 → interval_set.contains [(0, 4)] x = false) ∧
    (∀ diff : interval_set, round_diff_interval diff 0 = diff) := by
  refine ⟨by decide, by decide, by decide, by decide, by decide, ?_, ?_⟩
  · intro x h4 _
    simp [interval_set.contains]
    omega
  · intro diff
    simp [round_diff_interval]

end RADOS
